import Mathlib

/-!
Verification development for `crates/anthropic/src/anthropic.rs`: a shallow
embedding of the Anthropic protocol adapter (event-stream decoder, delta
extractor, request encoder, error unification, model catalog) together with
theorems about the embedded definitions.

JSON values model `serde_json::Value`; numbers are kept as exact rationals
(every `f64`/`f32` value is a rational, and the event grammar only ever uses
integers).  `Json.parse` models `serde_json::from_str` up to the numeric
grammar subset the protocol uses.
-/

inductive Json where
  | null
  | bool (b : Bool)
  | num (q : Rat)
  | str (s : String)
  | arr (elems : List Json)
  | obj (fields : List (String × Json))

/-- JSON whitespace characters. -/
def jsonWs (c : Char) : Bool :=
  c = ' ' || c = '\t' || c = '\n' || c = '\r'

def skipWs : List Char → List Char
  | [] => []
  | c :: cs => if jsonWs c then skipWs cs else c :: cs

def hexVal (c : Char) : Option Nat :=
  if '0' ≤ c ∧ c ≤ '9' then some (c.toNat - '0'.toNat)
  else if 'a' ≤ c ∧ c ≤ 'f' then some (c.toNat - 'a'.toNat + 10)
  else if 'A' ≤ c ∧ c ≤ 'F' then some (c.toNat - 'A'.toNat + 10)
  else none

/-- Simple (single-character) JSON string escapes. -/
def unescapeChar (c : Char) : Option Char :=
  if c = '"' then some '"'
  else if c = '\\' then some '\\'
  else if c = '/' then some '/'
  else if c = 'n' then some '\n'
  else if c = 't' then some '\t'
  else if c = 'r' then some '\r'
  else if c = 'b' then some (Char.ofNat 8)
  else if c = 'f' then some (Char.ofNat 12)
  else none

/-- Parse the body of a JSON string literal (the opening quote already
consumed), returning the decoded characters and the rest of the input. -/
def parseStringBody : List Char → Option (List Char × List Char)
  | [] => none
  | c :: rest =>
    if c = '"' then some ([], rest)
    else if c = '\\' then
      match rest with
      | 'u' :: h1 :: h2 :: h3 :: h4 :: rest4 =>
        match hexVal h1, hexVal h2, hexVal h3, hexVal h4, parseStringBody rest4 with
        | some a, some b, some c1, some d, some (cs, r) =>
          some (Char.ofNat (((a * 16 + b) * 16 + c1) * 16 + d) :: cs, r)
        | _, _, _, _, _ => none
      | e :: rest2 =>
        match unescapeChar e, parseStringBody rest2 with
        | some c1, some (cs, r) => some (c1 :: cs, r)
        | _, _ => none
      | [] => none
    else
      match parseStringBody rest with
      | some (cs, r) => some (c :: cs, r)
      | none => none

def digitVal (c : Char) : Option Nat :=
  if '0' ≤ c ∧ c ≤ '9' then some (c.toNat - '0'.toNat) else none

def takeDigits : List Char → (List Nat × List Char)
  | [] => ([], [])
  | c :: cs =>
    match digitVal c with
    | some d =>
      match takeDigits cs with
      | (ds, r) => (d :: ds, r)
    | none => ([], c :: cs)

def digitsToNat (ds : List Nat) : Nat := ds.foldl (fun a d => a * 10 + d) 0

/-- Optional fractional part `.digits` of a JSON number. -/
def parseFrac : List Char → Option (Rat × List Char)
  | '.' :: rest =>
    match takeDigits rest with
    | ([], _) => none
    | (ds, r) => some ((digitsToNat ds : Rat) / ((10 : Rat) ^ ds.length), r)
  | l => some (0, l)

/-- Optional exponent part `e[+-]digits` of a JSON number. -/
def parseExp : List Char → Option (Int × List Char)
  | [] => some (0, [])
  | c :: rest =>
    if c = 'e' ∨ c = 'E' then
      match
        (match rest with
          | '+' :: r => ((1 : Int), r)
          | '-' :: r => ((-1 : Int), r)
          | _ => ((1 : Int), rest)) with
      | (sgn, l1) =>
        match takeDigits l1 with
        | ([], _) => none
        | (ds, r) => some (sgn * (digitsToNat ds : Int), r)
    else some (0, c :: rest)

def applyExp (base : Rat) (ex : Int) : Rat :=
  if 0 ≤ ex then base * (10 : Rat) ^ ex.toNat else base / (10 : Rat) ^ (-ex).toNat

def parseNumber (l : List Char) : Option (Rat × List Char) :=
  match
    (match l with
      | '-' :: rest => (true, rest)
      | _ => (false, l)) with
  | (neg, l1) =>
    match takeDigits l1 with
    | ([], _) => none
    | (ds, l2) =>
      if 1 < ds.length ∧ ds.headD 1 = 0 then none
      else
        match parseFrac l2 with
        | none => none
        | some (frac, l3) =>
          match parseExp l3 with
          | none => none
          | some (ex, l4) =>
            let v := applyExp ((digitsToNat ds : Rat) + frac) ex
            some (if neg then -v else v, l4)

def expectLit (lit : List Char) (l : List Char) : Option (List Char) :=
  match lit, l with
  | [], s => some s
  | p :: ps, c :: cs => if c = p then expectLit ps cs else none
  | _ :: _, [] => none

mutual

def parseVal : Nat → List Char → Option (Json × List Char)
  | 0, _ => none
  | fuel + 1, l =>
    match skipWs l with
    | [] => none
    | c :: rest =>
      if c = '"' then
        match parseStringBody rest with
        | some (cs, r) => some (.str (String.mk cs), r)
        | none => none
      else if c = '{' then
        match skipWs rest with
        | '}' :: r => some (.obj [], r)
        | r =>
          match parseMembers fuel r with
          | some (kvs, r2) => some (.obj kvs, r2)
          | none => none
      else if c = '[' then
        match skipWs rest with
        | ']' :: r => some (.arr [], r)
        | r =>
          match parseElems fuel r with
          | some (vs, r2) => some (.arr vs, r2)
          | none => none
      else if c = 't' then
        match expectLit ['r', 'u', 'e'] rest with
        | some r => some (.bool true, r)
        | none => none
      else if c = 'f' then
        match expectLit ['a', 'l', 's', 'e'] rest with
        | some r => some (.bool false, r)
        | none => none
      else if c = 'n' then
        match expectLit ['u', 'l', 'l'] rest with
        | some r => some (.null, r)
        | none => none
      else
        match parseNumber (c :: rest) with
        | some (q, r) => some (.num q, r)
        | none => none

def parseMembers : Nat → List Char → Option (List (String × Json) × List Char)
  | 0, _ => none
  | fuel + 1, l =>
    match skipWs l with
    | '"' :: rest =>
      match parseStringBody rest with
      | none => none
      | some (key, r1) =>
        match skipWs r1 with
        | ':' :: r2 =>
          match parseVal fuel r2 with
          | none => none
          | some (v, r3) =>
            match skipWs r3 with
            | ',' :: r4 =>
              match parseMembers fuel r4 with
              | some (kvs, r5) => some ((String.mk key, v) :: kvs, r5)
              | none => none
            | '}' :: r4 => some ([(String.mk key, v)], r4)
            | _ => none
        | _ => none
    | _ => none

def parseElems : Nat → List Char → Option (List Json × List Char)
  | 0, _ => none
  | fuel + 1, l =>
    match parseVal fuel l with
    | none => none
    | some (v, r1) =>
      match skipWs r1 with
      | ',' :: r2 =>
        match parseElems fuel r2 with
        | some (vs, r3) => some (v :: vs, r3)
        | none => none
      | ']' :: r2 => some ([v], r2)
      | _ => none

end

/-- Model of `serde_json::from_str` to a JSON value: parse one value and
require only trailing whitespace after it. -/
def Json.parse (s : String) : Except String Json :=
  match parseVal (2 * s.length + 2) s.data with
  | none => .error "invalid JSON"
  | some (j, rest) =>
    match skipWs rest with
    | [] => .ok j
    | _ => .error "trailing characters"

/-- Field lookup in a decoded JSON object.  `serde_json` builds a map where a
later duplicate key overwrites an earlier one, so the last occurrence wins. -/
def getField (fields : List (String × Json)) (key : String) : Option Json :=
  fields.foldl (fun acc kv => if kv.1 = key then some kv.2 else acc) none

def Json.asStr : Json → Except String String
  | .str s => .ok s
  | _ => .error "expected a string"

/-- Decode an unsigned integer bounded by `bound` (exclusive), as serde does
for `u32` / `usize` targets: the number must be integral and in range. -/
def Json.asNatLt (bound : Nat) : Json → Except String Nat
  | .num q =>
    if q.den = 1 ∧ 0 ≤ q.num ∧ q.num < (bound : Int) then .ok q.num.toNat
    else .error "invalid unsigned integer"
  | _ => .error "expected an unsigned integer"

def reqField (fields : List (String × Json)) (key : String) : Except String Json :=
  match getField fields key with
  | some j => .ok j
  | none => .error ("missing field " ++ key)

/-- An `Option<String>` struct field: missing and `null` both decode to
`none`, anything else must be a string. -/
def optStrField (fields : List (String × Json)) (key : String) :
    Except String (Option String) :=
  match getField fields key with
  | none => .ok none
  | some .null => .ok none
  | some j => j.asStr.map some

/-- An `Option<u32>` struct field: missing and `null` both decode to `none`. -/
def optU32Field (fields : List (String × Json)) (key : String) :
    Except String (Option Nat) :=
  match getField fields key with
  | none => .ok none
  | some .null => .ok none
  | some j => (j.asNatLt (2 ^ 32)).map some

inductive Role where
  | User
  | Assistant
  deriving DecidableEq

def Role.fromJson : Json → Except String Role
  | .str "user" => .ok .User
  | .str "assistant" => .ok .Assistant
  | _ => .error "invalid role"

structure ImageSource where
  source_type : String
  media_type : String
  data : String
  deriving DecidableEq

def ImageSource.fromJson : Json → Except String ImageSource
  | .obj fields => do
    let st ← (← reqField fields "type").asStr
    let mt ← (← reqField fields "media_type").asStr
    let d ← (← reqField fields "data").asStr
    .ok ⟨st, mt, d⟩
  | _ => .error "expected an object"

inductive Content where
  | Text (text : String)
  | Image (source : ImageSource)
  | ToolUse (id : String) (name : String) (input : Json)
  | ToolResult (tool_use_id : String) (content : String)

/-- Internally tagged decoding of `Content` (`#[serde(tag = "type")]`). -/
def Content.fromJson : Json → Except String Content
  | .obj fields =>
    match getField fields "type" with
    | some (.str t) =>
      if t = "text" then do
        let text ← (← reqField fields "text").asStr
        .ok (.Text text)
      else if t = "image" then do
        let source ← ImageSource.fromJson (← reqField fields "source")
        .ok (.Image source)
      else if t = "tool_use" then do
        let id ← (← reqField fields "id").asStr
        let name ← (← reqField fields "name").asStr
        let input ← reqField fields "input"
        .ok (.ToolUse id name input)
      else if t = "tool_result" then do
        let tid ← (← reqField fields "tool_use_id").asStr
        let content ← (← reqField fields "content").asStr
        .ok (.ToolResult tid content)
      else .error "unknown content type"
    | some _ => .error "content type tag must be a string"
    | none => .error "missing content type tag"
  | _ => .error "expected an object"

structure Usage where
  input_tokens : Option Nat
  output_tokens : Option Nat
  deriving DecidableEq

def Usage.fromJson : Json → Except String Usage
  | .obj fields => do
    let it ← optU32Field fields "input_tokens"
    let ot ← optU32Field fields "output_tokens"
    .ok ⟨it, ot⟩
  | _ => .error "expected an object"

structure Response where
  id : String
  response_type : String
  role : Role
  content : List Content
  model : String
  stop_reason : Option String
  stop_sequence : Option String
  usage : Usage

def Response.fromJson : Json → Except String Response
  | .obj fields => do
    let id ← (← reqField fields "id").asStr
    let rt ← (← reqField fields "type").asStr
    let role ← Role.fromJson (← reqField fields "role")
    let contentJson ← reqField fields "content"
    let content ←
      match contentJson with
      | .arr elems => elems.mapM Content.fromJson
      | _ => .error "expected an array"
    let model ← (← reqField fields "model").asStr
    let sr ← optStrField fields "stop_reason"
    let ss ← optStrField fields "stop_sequence"
    let usage ← Usage.fromJson (← reqField fields "usage")
    .ok ⟨id, rt, role, content, model, sr, ss, usage⟩
  | _ => .error "expected an object"

structure MessageDelta where
  stop_reason : Option String
  stop_sequence : Option String
  deriving DecidableEq

def MessageDelta.fromJson : Json → Except String MessageDelta
  | .obj fields => do
    let sr ← optStrField fields "stop_reason"
    let ss ← optStrField fields "stop_sequence"
    .ok ⟨sr, ss⟩
  | _ => .error "expected an object"

inductive ContentDelta where
  | TextDelta (text : String)
  | InputJsonDelta (partial_json : String)
  deriving DecidableEq

/-- Internally tagged decoding of `ContentDelta` (`#[serde(tag = "type")]`). -/
def ContentDelta.fromJson : Json → Except String ContentDelta
  | .obj fields =>
    match getField fields "type" with
    | some (.str t) =>
      if t = "text_delta" then do
        let text ← (← reqField fields "text").asStr
        .ok (.TextDelta text)
      else if t = "input_json_delta" then do
        let pj ← (← reqField fields "partial_json").asStr
        .ok (.InputJsonDelta pj)
      else .error "unknown content delta type"
    | some _ => .error "content delta type tag must be a string"
    | none => .error "missing content delta type tag"
  | _ => .error "expected an object"

structure ApiError where
  error_type : String
  message : String
  deriving DecidableEq

def ApiError.fromJson : Json → Except String ApiError
  | .obj fields => do
    let et ← (← reqField fields "type").asStr
    let msg ← (← reqField fields "message").asStr
    .ok ⟨et, msg⟩
  | _ => .error "expected an object"

/-- One frame of a streaming reply (`enum Event`, `#[serde(tag = "type")]`).
The `MessageDelta` variant carries the `MessageDelta` struct above. -/
inductive Event where
  | MessageStart (message : Response)
  | ContentBlockStart (index : Nat) (content_block : Content)
  | ContentBlockDelta (index : Nat) (delta : ContentDelta)
  | ContentBlockStop (index : Nat)
  | MessageDelta (delta : MessageDelta) (usage : Usage)
  | MessageStop
  | Ping
  | Error (error : ApiError)

/-- Internally tagged decoding of `Event` (`#[serde(tag = "type")]`): the
`type` field of the JSON object selects the variant; an unknown tag value is
a decode failure for the frame. -/
def Event.fromJson (j : Json) : Except String Event :=
  match j with
  | .obj fields =>
    match getField fields "type" with
    | some (.str t) =>
      if t = "message_start" then do
        let message ← Response.fromJson (← reqField fields "message")
        .ok (.MessageStart message)
      else if t = "content_block_start" then do
        let index ← (← reqField fields "index").asNatLt (2 ^ 64)
        let content_block ← Content.fromJson (← reqField fields "content_block")
        .ok (.ContentBlockStart index content_block)
      else if t = "content_block_delta" then do
        let index ← (← reqField fields "index").asNatLt (2 ^ 64)
        let delta ← ContentDelta.fromJson (← reqField fields "delta")
        .ok (.ContentBlockDelta index delta)
      else if t = "content_block_stop" then do
        let index ← (← reqField fields "index").asNatLt (2 ^ 64)
        .ok (.ContentBlockStop index)
      else if t = "message_delta" then do
        let delta ← MessageDelta.fromJson (← reqField fields "delta")
        let usage ← Usage.fromJson (← reqField fields "usage")
        .ok (.MessageDelta delta usage)
      else if t = "message_stop" then .ok .MessageStop
      else if t = "ping" then .ok .Ping
      else if t = "error" then do
        let error ← ApiError.fromJson (← reqField fields "error")
        .ok (.Error error)
      else .error "unknown event type"
    | some _ => .error "event type tag must be a string"
    | none => .error "missing event type tag"
  | _ => .error "expected an object"

/-- `serde_json::from_str::<Event>`. -/
def deserializeEvent (s : String) : Except String Event :=
  (Json.parse s).bind Event.fromJson

/-- `serde_json::from_slice::<Response>` (the body already read as text). -/
def deserializeResponse (s : String) : Except String Response :=
  (Json.parse s).bind Response.fromJson

/-- `str::strip_prefix` on character lists: `some rest` iff the input is
`pre ++ rest`. -/
def stripLeading : List Char → List Char → Option (List Char)
  | [], s => some s
  | p :: ps, c :: cs => if c = p then stripLeading ps cs else none
  | _ :: _, [] => none

/-- One line of the success-path body, as in `stream_completion`
(lines 160-168): a line without the `data: ` frame marker produces no item;
otherwise the rest of the line is deserialized as one `Event`. -/
def decodeLine (line : String) : Option (Except String Event) :=
  match stripLeading "data: ".data line.data with
  | none => none
  | some rest => some (deserializeEvent (String.mk rest))

/-- One line-read result (lines 160-170): a transport read failure on a line
is itself yielded as an `Err` item. -/
def decodeLineResult : Except String String → Option (Except String Event)
  | .ok line => decodeLine line
  | .error e => some (.error e)

/-- The success branch of `stream_completion` (lines 156-172): a filter-map
over the line-read results of the response body. -/
def stream_completion_events (lines : List (Except String String)) :
    List (Except String Event) :=
  lines.filterMap decodeLineResult

/-- The classified failures this adapter reports (each `RequestError.render`
below gives the exact `anyhow!` message built in the source). -/
inductive RequestError where
  | apiError (error : ApiError)
  | unexpectedSuccess (body : String)
  | httpStatus (status : Nat) (body : String)
  | deserializeFailed (msg : String)
  deriving DecidableEq

/-- `api_error_to_err` (lines 215-222). -/
def api_error_to_err (e : ApiError) : String :=
  "API error. Type: \x27" ++ e.error_type ++ "\x27, message: \x27" ++ e.message ++ "\x27"

def RequestError.render : RequestError → String
  | .apiError e => api_error_to_err e
  | .unexpectedSuccess body =>
    "Unexpected success response while expecting an error: \x27" ++ body ++ "\x27"
  | .httpStatus status body =>
    "Failed to connect to API: " ++ toString status ++ " " ++ body
  | .deserializeFailed msg => msg

/-- `http::StatusCode::is_success`: 200 ≤ status ≤ 299. -/
def is_success (status : Nat) : Bool :=
  200 ≤ status && status < 300

/-- The non-success branch of `stream_completion` (lines 173-190): the whole
body is read and decoded as a single `Event`. -/
def stream_completion_error (status : Nat) (body : String) : RequestError :=
  match deserializeEvent body with
  | .ok (.Error error) => .apiError error
  | .ok _ => .unexpectedSuccess body
  | .error _ => .httpStatus status body

/-- `stream_completion` (lines 130-191) after the transport returned
`status`; on success the body is consumed as line-read results `lines`, on a
non-success status it is read whole as `body`. -/
def stream_completion (status : Nat) (lines : List (Except String String))
    (body : String) : Except RequestError (List (Except String Event)) :=
  if is_success status then .ok (stream_completion_events lines)
  else .error (stream_completion_error status body)

/-- `complete` (lines 94-128) after the transport returned `status` with
body text `body`: the single-shot call decodes a `Response` on success and
otherwise reports the raw status and body verbatim. -/
def complete (status : Nat) (body : String) : Except RequestError Response :=
  if is_success status then
    match deserializeResponse body with
    | .ok r => .ok r
    | .error msg => .error (.deserializeFailed msg)
  else .error (.httpStatus status body)

/-- `extract_text_from_events` (lines 193-213): a filter-map projecting the
event sequence to incremental text fragments. -/
def extract_text_from_events (events : List (Except String Event)) :
    List (Except String String) :=
  events.filterMap fun item =>
    match item with
    | .ok ev =>
      match ev with
      | .ContentBlockStart _ content_block =>
        match content_block with
        | .Text text => some (.ok text)
        | _ => none
      | .ContentBlockDelta _ delta =>
        match delta with
        | .TextDelta text => some (.ok text)
        | _ => none
      | .Error error => some (.error (api_error_to_err error))
      | _ => none
    | .error e => some (.error e)

def Role.toJson : Role → Json
  | .User => .str "user"
  | .Assistant => .str "assistant"

def ImageSource.toJson (s : ImageSource) : Json :=
  .obj [("type", .str s.source_type), ("media_type", .str s.media_type),
    ("data", .str s.data)]

/-- Internally tagged serialization of `Content`. -/
def Content.toJson : Content → Json
  | .Text text => .obj [("type", .str "text"), ("text", .str text)]
  | .Image source => .obj [("type", .str "image"), ("source", source.toJson)]
  | .ToolUse id name input =>
    .obj [("type", .str "tool_use"), ("id", .str id), ("name", .str name),
      ("input", input)]
  | .ToolResult tid content =>
    .obj [("type", .str "tool_result"), ("tool_use_id", .str tid),
      ("content", .str content)]

structure Message where
  role : Role
  content : List Content

def Message.toJson (m : Message) : Json :=
  .obj [("role", m.role.toJson), ("content", .arr (m.content.map Content.toJson))]

structure Tool where
  name : String
  description : String
  input_schema : Json

def Tool.toJson (t : Tool) : Json :=
  .obj [("name", .str t.name), ("description", .str t.description),
    ("input_schema", t.input_schema)]

inductive ToolChoice where
  | Auto
  | Any
  | Tool (name : String)
  deriving DecidableEq

def ToolChoice.toJson : ToolChoice → Json
  | .Auto => .obj [("type", .str "auto")]
  | .Any => .obj [("type", .str "any")]
  | .Tool name => .obj [("type", .str "tool"), ("name", .str name)]

structure Metadata where
  user_id : Option String

/-- `Metadata` has no skip attribute, so an unset `user_id` serializes as an
explicit `null`. -/
def Metadata.toJson (m : Metadata) : Json :=
  .obj [("user_id", match m.user_id with | none => .null | some u => .str u)]

/-- `struct Request` (lines 280-301).  The `f32` sampling parameters are
modelled as exact rationals. -/
structure Request where
  model : String
  max_tokens : Nat
  messages : List Message
  tools : List Tool
  tool_choice : Option ToolChoice
  system : Option String
  metadata : Option Metadata
  stop_sequences : List String
  temperature : Option Rat
  top_k : Option Nat
  top_p : Option Rat

/-- Serialization of `Request`: serde emits fields in declaration order and
the `skip_serializing_if` attributes drop an empty `Vec` or a `None`. -/
def Request.jsonFields (r : Request) : List (String × Json) :=
  [("model", .str r.model), ("max_tokens", .num (r.max_tokens : Rat)),
    ("messages", .arr (r.messages.map Message.toJson))]
  ++ (if r.tools.isEmpty then [] else [("tools", .arr (r.tools.map Tool.toJson))])
  ++ (match r.tool_choice with | none => [] | some tc => [("tool_choice", tc.toJson)])
  ++ (match r.system with | none => [] | some s => [("system", .str s)])
  ++ (match r.metadata with | none => [] | some m => [("metadata", m.toJson)])
  ++ (if r.stop_sequences.isEmpty then []
      else [("stop_sequences", .arr (r.stop_sequences.map Json.str))])
  ++ (match r.temperature with | none => [] | some t => [("temperature", .num t)])
  ++ (match r.top_k with | none => [] | some k => [("top_k", .num (k : Rat))])
  ++ (match r.top_p with | none => [] | some p => [("top_p", .num p)])

def Request.toJson (r : Request) : Json :=
  .obj r.jsonFields

/-- `struct StreamingRequest` (lines 303-308): a `Request` with the
`#[serde(flatten)]` base fields followed by the `stream` marker. -/
structure StreamingRequest where
  base : Request
  stream : Bool

def StreamingRequest.toJson (r : StreamingRequest) : Json :=
  .obj (r.base.jsonFields ++ [("stream", .bool r.stream)])

/-- `enum Model` (lines 15-34). -/
inductive Model where
  | Claude3_5Sonnet
  | Claude3Opus
  | Claude3Sonnet
  | Claude3Haiku
  | Custom (name : String) (max_tokens : Nat) (tool_override : Option String)
  deriving DecidableEq

/-- `str::starts_with` with a string pattern. -/
def strStartsWith (s pre : String) : Bool :=
  pre.data.isPrefixOf s.data

/-- `Model::from_id` (lines 37-49). -/
def Model.from_id (id : String) : Except String Model :=
  if strStartsWith id "claude-3-5-sonnet" then .ok .Claude3_5Sonnet
  else if strStartsWith id "claude-3-opus" then .ok .Claude3Opus
  else if strStartsWith id "claude-3-sonnet" then .ok .Claude3Sonnet
  else if strStartsWith id "claude-3-haiku" then .ok .Claude3Haiku
  else .error "invalid model id"

/-- `Model::id` (lines 51-59), verbatim from the source table. -/
def Model.id : Model → String
  | .Claude3_5Sonnet => "claude-3-5-sonnet-20240620"
  | .Claude3Opus => "claude-3-opus-20240229"
  | .Claude3Sonnet => "claude-3-sonnet-20240229"
  | .Claude3Haiku => "claude-3-opus-20240307"
  | .Custom name _ _ => name

/-- `Model::display_name` (lines 61-69). -/
def Model.display_name : Model → String
  | .Claude3_5Sonnet => "Claude 3.5 Sonnet"
  | .Claude3Opus => "Claude 3 Opus"
  | .Claude3Sonnet => "Claude 3 Sonnet"
  | .Claude3Haiku => "Claude 3 Haiku"
  | .Custom name _ _ => name

theorem stripLeading_eq_some {pre s r : List Char} :
    stripLeading pre s = some r ↔ s = pre ++ r := by
  induction pre generalizing s with
  | nil =>
    simp [stripLeading, eq_comm]
  | cons p ps ih =>
    cases s with
    | nil => simp [stripLeading]
    | cons c cs =>
      simp only [stripLeading, List.cons_append, List.cons.injEq]
      by_cases h : c = p
      · subst h
        simp [ih]
      · simp [h]

theorem decodeLine_of_not_marked (line : String)
    (h : ¬ "data: ".data <+: line.data) : decodeLine line = none := by
  cases hs : stripLeading "data: ".data line.data with
  | none => simp [decodeLine, hs]
  | some r =>
    exact absurd ⟨r, (stripLeading_eq_some.mp hs).symm⟩ h

theorem decodeLine_of_marked (line : String) (rest : List Char)
    (h : line.data = "data: ".data ++ rest) :
    decodeLine line = some (deserializeEvent (String.mk rest)) := by
  have hs : stripLeading "data: ".data line.data = some rest :=
    stripLeading_eq_some.mpr h
  simp [decodeLine, hs]

/-- C1: For every line of the streaming response body, the event-stream
decoder yields no item when the line does not begin with the literal frame
marker `data: `; when it does, the marker is stripped and the remainder is
deserialized as one `Event`, yielding `Ok` on a successful decode and `Err`
on a malformed frame; a line-read failure is itself yielded as an `Err`
item; and no item ends the sequence early — the remaining lines are still
decoded. -/
theorem stream_decoder_line_spec :
    (∀ line : String, ¬ "data: ".data <+: line.data → decodeLine line = none) ∧
    (∀ (line : String) (rest : List Char), line.data = "data: ".data ++ rest →
      decodeLine line = some (deserializeEvent (String.mk rest))) ∧
    (∀ (line : String) (rest : List Char) (ev : Event),
      line.data = "data: ".data ++ rest →
      deserializeEvent (String.mk rest) = .ok ev →
      decodeLine line = some (.ok ev)) ∧
    (∀ (line : String) (rest : List Char) (msg : String),
      line.data = "data: ".data ++ rest →
      deserializeEvent (String.mk rest) = .error msg →
      decodeLine line = some (.error msg)) ∧
    (∀ msg : String, decodeLineResult (.error msg) = some (.error msg)) ∧
    (∀ (item : Except String String) (rest : List (Except String String)),
      stream_completion_events (item :: rest) =
        (decodeLineResult item).toList ++ stream_completion_events rest) := by
  refine ⟨decodeLine_of_not_marked, decodeLine_of_marked, ?_, ?_, ?_, ?_⟩
  · intro line rest ev hline hdec
    rw [decodeLine_of_marked line rest hline, hdec]
  · intro line rest msg hline hdec
    rw [decodeLine_of_marked line rest hline, hdec]
  · intro msg
    rfl
  · intro item rest
    cases h : decodeLineResult item with
    | none => simp [stream_completion_events, List.filterMap_cons, h]
    | some it => simp [stream_completion_events, List.filterMap_cons, h]

theorem stream_decoder_line_spec_witness :
    decodeLine "event: message_start" = none ∧
    decodeLine "data: \x7b\"type\":\"ping\"\x7d" = some (deserializeEvent "\x7b\"type\":\"ping\"\x7d") ∧
    decodeLine "data: \x7b\"type\":\"ping\"\x7d" = some (.ok Event.Ping) ∧
    decodeLine "data: \x7d" = some (.error "invalid JSON") :=
  ⟨stream_decoder_line_spec.1 "event: message_start" (by decide),
   stream_decoder_line_spec.2.1 "data: \x7b\"type\":\"ping\"\x7d" "\x7b\"type\":\"ping\"\x7d".data
     (by decide),
   stream_decoder_line_spec.2.2.1 "data: \x7b\"type\":\"ping\"\x7d" "\x7b\"type\":\"ping\"\x7d".data
     Event.Ping (by decide) (by rfl),
   stream_decoder_line_spec.2.2.2.1 "data: \x7d" "\x7d".data "invalid JSON"
     (by decide) (by rfl)⟩

/-- C2: The delta extractor emits exactly the text of every
`ContentBlockStart` whose block is `Text`, the text of every
`ContentBlockDelta` whose delta is `TextDelta`, a failure item for every
`Error` event, passes an upstream decode failure through unchanged, emits
nothing for any other event, and on the four-frame example stream yields
exactly `["Hello", " world"]` in order. -/
theorem delta_extractor_projection :
    (∀ (i : Nat) (t : String) (rest : List (Except String Event)),
      extract_text_from_events (.ok (.ContentBlockStart i (.Text t)) :: rest) =
        .ok t :: extract_text_from_events rest) ∧
    (∀ (i : Nat) (t : String) (rest : List (Except String Event)),
      extract_text_from_events (.ok (.ContentBlockDelta i (.TextDelta t)) :: rest) =
        .ok t :: extract_text_from_events rest) ∧
    (∀ (e : ApiError) (rest : List (Except String Event)),
      extract_text_from_events (.ok (.Error e) :: rest) =
        .error (api_error_to_err e) :: extract_text_from_events rest) ∧
    (∀ (msg : String) (rest : List (Except String Event)),
      extract_text_from_events (.error msg :: rest) =
        .error msg :: extract_text_from_events rest) ∧
    (∀ (ev : Event) (rest : List (Except String Event)),
      (∀ i t, ev ≠ .ContentBlockStart i (.Text t)) →
      (∀ i t, ev ≠ .ContentBlockDelta i (.TextDelta t)) →
      (∀ e, ev ≠ .Error e) →
      extract_text_from_events (.ok ev :: rest) = extract_text_from_events rest) ∧
    (extract_text_from_events
        [.ok (.ContentBlockStart 0 (.Text "Hello")),
         .ok (.ContentBlockDelta 0 (.TextDelta " world")),
         .ok (.ContentBlockStop 0), .ok .MessageStop] =
      [.ok "Hello", .ok " world"]) := by
  refine ⟨?_, ?_, ?_, ?_, ?_, rfl⟩
  · intro i t rest
    rfl
  · intro i t rest
    rfl
  · intro e rest
    rfl
  · intro msg rest
    rfl
  · intro ev rest h1 h2 h3
    cases ev with
    | ContentBlockStart i cb =>
      cases cb with
      | Text t => exact absurd rfl (h1 i t)
      | Image s => rfl
      | ToolUse a b c => rfl
      | ToolResult a b => rfl
    | ContentBlockDelta i d =>
      cases d with
      | TextDelta t => exact absurd rfl (h2 i t)
      | InputJsonDelta p => rfl
    | Error e => exact absurd rfl (h3 e)
    | MessageStart m => rfl
    | ContentBlockStop i => rfl
    | MessageDelta d u => rfl
    | MessageStop => rfl
    | Ping => rfl

theorem delta_extractor_projection_witness :
    extract_text_from_events [.ok Event.Ping] = extract_text_from_events [] :=
  delta_extractor_projection.2.2.2.2.1 Event.Ping []
    (fun _ _ h => nomatch h) (fun _ _ h => nomatch h) (fun _ h => nomatch h)

/-- C3: On a non-success status the streaming call reads the whole body and
decodes it as a single `Event`: an `Error` variant surfaces the contained
`ApiError`; any other successfully decoded variant surfaces the
malformed-error-response failure; a body that fails to decode surfaces the
raw-status failure carrying the status code and the body text verbatim. -/
theorem stream_error_branch_spec :
    ∀ (status : Nat) (body : String),
      (∀ e : ApiError, deserializeEvent body = .ok (.Error e) →
        stream_completion_error status body = .apiError e) ∧
      (∀ ev : Event, deserializeEvent body = .ok ev → (∀ e, ev ≠ Event.Error e) →
        stream_completion_error status body = .unexpectedSuccess body) ∧
      (∀ msg : String, deserializeEvent body = .error msg →
        stream_completion_error status body = .httpStatus status body) := by
  intro status body
  refine ⟨?_, ?_, ?_⟩
  · intro e h
    simp [stream_completion_error, h]
  · intro ev h hne
    rw [stream_completion_error, h]
    cases ev with
    | Error e => exact absurd rfl (hne e)
    | MessageStart m => rfl
    | ContentBlockStart i cb => rfl
    | ContentBlockDelta i d => rfl
    | ContentBlockStop i => rfl
    | MessageDelta d u => rfl
    | MessageStop => rfl
    | Ping => rfl
  · intro msg h
    simp [stream_completion_error, h]

theorem stream_error_branch_spec_witness :
    stream_completion_error 400
        "\x7b\"type\":\"error\",\"error\":\x7b\"type\":\"overloaded_error\",\"message\":\"busy\"\x7d\x7d" =
      .apiError ⟨"overloaded_error", "busy"⟩ ∧
    stream_completion_error 400 "\x7b\"type\":\"ping\"\x7d" =
      .unexpectedSuccess "\x7b\"type\":\"ping\"\x7d" ∧
    stream_completion_error 503 "garbage" = .httpStatus 503 "garbage" :=
  ⟨(stream_error_branch_spec 400
      "\x7b\"type\":\"error\",\"error\":\x7b\"type\":\"overloaded_error\",\"message\":\"busy\"\x7d\x7d").1
      ⟨"overloaded_error", "busy"⟩ (by rfl),
   (stream_error_branch_spec 400 "\x7b\"type\":\"ping\"\x7d").2.1 Event.Ping (by rfl)
     (fun _ h => nomatch h),
   (stream_error_branch_spec 503 "garbage").2.2 "invalid JSON" (by rfl)⟩

/-- C4 (amended): On a non-success status the single-shot call does not
decode the body as an `Event`; it always surfaces the raw-status failure
carrying the status code and the body text verbatim.  (Only the streaming
call decodes the error body as an `Event`.) -/
theorem complete_non_success_raw :
    ∀ (status : Nat) (body : String), is_success status = false →
      complete status body = .error (.httpStatus status body) := by
  intro status body h
  simp [complete, h]

theorem complete_non_success_raw_witness :
    complete 400
        "\x7b\"type\":\"error\",\"error\":\x7b\"type\":\"invalid_request_error\",\"message\":\"bad\"\x7d\x7d" =
      .error (.httpStatus 400
        "\x7b\"type\":\"error\",\"error\":\x7b\"type\":\"invalid_request_error\",\"message\":\"bad\"\x7d\x7d") :=
  complete_non_success_raw 400
    "\x7b\"type\":\"error\",\"error\":\x7b\"type\":\"invalid_request_error\",\"message\":\"bad\"\x7d\x7d"
    (by decide)

/-- C4 counterexample: at status 400, with a body that does decode as an
`Error` event carrying `invalid_request_error`, the single-shot call still
surfaces only the raw-status failure — not a structured failure carrying the
`ApiError`. -/
theorem complete_not_structured_counterexample :
    complete 400
        "\x7b\"type\":\"error\",\"error\":\x7b\"type\":\"invalid_request_error\",\"message\":\"bad\"\x7d\x7d" =
      .error (.httpStatus 400
        "\x7b\"type\":\"error\",\"error\":\x7b\"type\":\"invalid_request_error\",\"message\":\"bad\"\x7d\x7d") ∧
    deserializeEvent
        "\x7b\"type\":\"error\",\"error\":\x7b\"type\":\"invalid_request_error\",\"message\":\"bad\"\x7d\x7d" =
      .ok (.Error ⟨"invalid_request_error", "bad"⟩) ∧
    RequestError.httpStatus 400
        "\x7b\"type\":\"error\",\"error\":\x7b\"type\":\"invalid_request_error\",\"message\":\"bad\"\x7d\x7d" ≠
      RequestError.apiError ⟨"invalid_request_error", "bad"⟩ :=
  ⟨by rfl, by rfl, by decide⟩

/-- C5 (amended): For every event sequence, an `Error` event yields all text
fragments emitted before it, then one failure item carrying the decoded
`ApiError` with its `error_type` and `message` preserved; the sequence is
not force-closed, so events after the `Error` are still processed and their
items still appear. -/
theorem extract_error_emits_failure_and_continues :
    ∀ (pre post : List (Except String Event)) (e : ApiError),
      extract_text_from_events (pre ++ .ok (.Error e) :: post) =
        extract_text_from_events pre ++
          .error (api_error_to_err e) :: extract_text_from_events post := by
  intro pre post e
  simp [extract_text_from_events, List.filterMap_append, List.filterMap_cons]

/-- C5 counterexample: a stream whose `Error` event is followed by a text
delta does not end with the failure item — the later text is still emitted,
so the extractor yields something after the failure. -/
theorem extract_error_continues_counterexample :
    extract_text_from_events
        [.ok (.Error ⟨"overloaded_error", "busy"⟩),
         .ok (.ContentBlockDelta 0 (.TextDelta "after"))] =
      [.error (api_error_to_err ⟨"overloaded_error", "busy"⟩), .ok "after"] ∧
    ([.error (api_error_to_err ⟨"overloaded_error", "busy"⟩), .ok "after"] :
        List (Except String String)) ≠
      [.error (api_error_to_err ⟨"overloaded_error", "busy"⟩)] :=
  ⟨rfl, by simp⟩

/-- C6: A frame line `data: <json>` whose JSON object carries a `type` tag
outside the eight known event tags yields a decode-failure item for that
frame — not an event and not a filtered-out line. -/
theorem unknown_event_type_rejected :
    ∀ (s : String) (fields : List (String × Json)) (t : String),
      Json.parse s = .ok (.obj fields) →
      getField fields "type" = some (.str t) →
      t ∉ (["message_start", "content_block_start", "content_block_delta",
        "content_block_stop", "message_delta", "message_stop", "ping",
        "error"] : List String) →
      ∃ msg, decodeLine ("data: " ++ s) = some (.error msg) := by
  intro s fields t hparse htag hmem
  have hdata : ("data: " ++ s).data = "data: ".data ++ s.data :=
    String.data_append "data: " s
  rw [decodeLine_of_marked ("data: " ++ s) s.data hdata]
  have hmk : String.mk s.data = s := rfl
  rw [hmk]
  simp only [List.mem_cons, List.not_mem_nil, or_false, not_or] at hmem
  obtain ⟨h1, h2, h3, h4, h5, h6, h7, h8⟩ := hmem
  refine ⟨"unknown event type", ?_⟩
  simp only [deserializeEvent, hparse, Except.bind, Event.fromJson, htag]
  simp [h1, h2, h3, h4, h5, h6, h7, h8]

theorem unknown_event_type_rejected_witness :
    ∃ msg, decodeLine ("data: " ++ "\x7b\"type\":\"bogus\"\x7d") = some (.error msg) :=
  unknown_event_type_rejected "\x7b\"type\":\"bogus\"\x7d" [("type", .str "bogus")]
    "bogus" (by rfl) (by rfl) (by decide)

/-- C7: Encoding a `Request` whose optional fields are all unset (empty
tools, no tool choice, no system prompt, no metadata, empty stop sequences,
no sampling parameters) produces a payload holding exactly the three
mandatory keys; no optional key is present and no placeholder is emitted. -/
theorem request_sparse_encoding :
    ∀ (model : String) (max_tokens : Nat) (messages : List Message),
      Request.toJson
          ⟨model, max_tokens, messages, [], none, none, none, [], none, none, none⟩ =
        .obj [("model", .str model), ("max_tokens", .num (max_tokens : Rat)),
          ("messages", .arr (messages.map Message.toJson))] ∧
      ∀ k ∈ (["tools", "tool_choice", "system", "metadata", "stop_sequences",
          "temperature", "top_k", "top_p"] : List String),
        getField
          (Request.jsonFields
            ⟨model, max_tokens, messages, [], none, none, none, [], none, none, none⟩)
          k = none := by
  intro model max_tokens messages
  refine ⟨rfl, ?_⟩
  intro k hk
  fin_cases hk <;> rfl

theorem request_sparse_encoding_witness :
    getField
        (Request.jsonFields
          ⟨"claude-3-opus-20240229", 1024, [], [], none, none, none, [], none,
            none, none⟩)
        "temperature" = none :=
  (request_sparse_encoding "claude-3-opus-20240229" 1024 []).2 "temperature"
    (by decide)

/-- C8: Neither pipeline stage reorders, batches, or buffers across items:
both the event-stream decoder and the delta extractor distribute over
concatenation of their inputs, so outputs appear in exactly the order their
inputs appeared. -/
theorem pipeline_preserves_order :
    ∀ (xs ys : List (Except String String)) (es fs : List (Except String Event)),
      stream_completion_events (xs ++ ys) =
        stream_completion_events xs ++ stream_completion_events ys ∧
      extract_text_from_events (es ++ fs) =
        extract_text_from_events es ++ extract_text_from_events fs := by
  intro xs ys es fs
  exact ⟨List.filterMap_append xs ys decodeLineResult,
    List.filterMap_append es fs _⟩

/-- C9: Decoding is deterministic and stateless across calls: running the
event-stream decoder (and the delta extractor) over equal fresh input
sequences yields identical ordered output — there is no cross-call state. -/
theorem decode_rerun_deterministic :
    ∀ (lines1 lines2 : List (Except String String))
      (es1 es2 : List (Except String Event)),
      lines1 = lines2 → es1 = es2 →
      stream_completion_events lines1 = stream_completion_events lines2 ∧
      extract_text_from_events es1 = extract_text_from_events es2 ∧
      extract_text_from_events (stream_completion_events lines1) =
        extract_text_from_events (stream_completion_events lines2) := by
  intro lines1 lines2 es1 es2 h1 h2
  subst h1
  subst h2
  exact ⟨rfl, rfl, rfl⟩

theorem decode_rerun_deterministic_witness :
    stream_completion_events [.ok "data: \x7b\"type\":\"ping\"\x7d"] =
      stream_completion_events [.ok "data: \x7b\"type\":\"ping\"\x7d"] ∧
    extract_text_from_events [.ok Event.Ping] =
      extract_text_from_events [.ok Event.Ping] ∧
    extract_text_from_events (stream_completion_events [.ok "data: \x7b\"type\":\"ping\"\x7d"]) =
      extract_text_from_events (stream_completion_events [.ok "data: \x7b\"type\":\"ping\"\x7d"]) :=
  decode_rerun_deterministic [.ok "data: \x7b\"type\":\"ping\"\x7d"]
    [.ok "data: \x7b\"type\":\"ping\"\x7d"] [.ok Event.Ping] [.ok Event.Ping] rfl rfl

/-- C10: The wire-identifier round-trip `from_id (m.id())` returns the same
variant for `Claude3_5Sonnet`, `Claude3Opus` and `Claude3Sonnet`, but the
catalog entry for `Claude3Haiku` returns `"claude-3-opus-20240307"` — an
opus-family string carrying the haiku date — so its round-trip lands on
`Claude3Opus` instead of `Claude3Haiku`. -/
theorem model_id_roundtrip_haiku_bug :
    Model.from_id (Model.id .Claude3_5Sonnet) = .ok .Claude3_5Sonnet ∧
    Model.from_id (Model.id .Claude3Opus) = .ok .Claude3Opus ∧
    Model.from_id (Model.id .Claude3Sonnet) = .ok .Claude3Sonnet ∧
    Model.from_id (Model.id .Claude3Haiku) = .ok .Claude3Opus ∧
    Model.Claude3Opus ≠ Model.Claude3Haiku :=
  ⟨rfl, rfl, rfl, rfl, by decide⟩
